import Mathlib

/-!
Shallow embedding of the Homedics SereneScent BLE coordinator
(`custom_components/homedics_serenescent/coordinator.py` together with the
protocol constants of `const.py`).

Bytes are modelled as `Nat`, frames as `List Nat`, time quantities as `ℚ`.
The BLE transport is abstracted as an oracle (`SendRes`) describing, for each
successive `_send_command` call, whether the send raised a transport error or
returned an (optional) response frame.  Device-state mutation is explicit
state passing over `DeviceState`.
-/

namespace SereneScent

/-! ## Protocol constants (const.py) -/

def RESP_HEADER : List Nat := [0xFF, 0xFB]

def CMD_POWER_ON : List Nat := [0xFF, 0xFA, 0x10, 0x04]

def CMD_POWER_OFF : List Nat := [0xFF, 0xFA, 0x11, 0x04]

def CMD_INTENSITY_LOW : List Nat := [0xFF, 0xFA, 0x17, 0x08, 0x00, 0x0A, 0x00, 0xF0]

def CMD_INTENSITY_MEDIUM : List Nat := [0xFF, 0xFA, 0x17, 0x08, 0x00, 0x14, 0x00, 0x82]

def CMD_INTENSITY_HIGH : List Nat := [0xFF, 0xFA, 0x17, 0x08, 0x00, 0x1E, 0x00, 0x3C]

def CMD_COLOR_OFF : List Nat := [0xFF, 0xFA, 0x16, 0x05, 0x00]

def CMD_COLOR_ROTATING : List Nat := [0xFF, 0xFA, 0x16, 0x05, 0x01]

def CMD_COLOR_WHITE : List Nat := [0xFF, 0xFA, 0x16, 0x05, 0x02]

def CMD_COLOR_RED : List Nat := [0xFF, 0xFA, 0x16, 0x05, 0x03]

def CMD_COLOR_BLUE : List Nat := [0xFF, 0xFA, 0x16, 0x05, 0x04]

def CMD_COLOR_VIOLET : List Nat := [0xFF, 0xFA, 0x16, 0x05, 0x05]

def CMD_COLOR_GREEN : List Nat := [0xFF, 0xFA, 0x16, 0x05, 0x06]

def CMD_COLOR_ORANGE : List Nat := [0xFF, 0xFA, 0x16, 0x05, 0x07]

def CMD_SCHEDULE_ON : List Nat := [0xFF, 0xFA, 0x14, 0x04]

def CMD_SCHEDULE_OFF : List Nat := [0xFF, 0xFA, 0x13, 0x04]

def CMD_SCHEDULE_SYNC : List Nat := [0xFF, 0xFA, 0x15, 0x04]

def CMD_SETTINGS_SYNC : List Nat :=
  [0xFF, 0xFA, 0x20, 0x0E, 0x06, 0x00, 0x16, 0x00, 0x00, 0x1E, 0x00, 0x3C, 0x7F, 0x01]

def CMD_SCHEDULE_UNKNOWN1 : List Nat := [0xFF, 0xFA, 0x12, 0x04]

def CMD_SCHEDULE_UNKNOWN2 : List Nat := [0xFF, 0xFA, 0x46, 0x04]

def CMD_MODE_HOME : List Nat := [0xFF, 0xFA, 0x43, 0x05, 0x00]

def CMD_MODE_SCHEDULE : List Nat := [0xFF, 0xFA, 0x43, 0x05, 0x01]

def CMD_STATUS_HOME : List Nat := [0xFF, 0xFA, 0x40, 0x05, 0x00]

def CMD_STATUS_SCHEDULE : List Nat := [0xFF, 0xFA, 0x40, 0x05, 0x01]

def STATUS_BYTE_INTENSITY : Nat := 8

def STATUS_BYTE_COLOR : Nat := 12

def STATUS_BYTE_SCHEDULE : Nat := 13

def STATUS_BYTE_POWER : Nat := 14

def STATUS_BYTE_MODE : Nat := 15

def CONNECTION_MAX_ATTEMPTS : Nat := 3

def CONNECTION_MAX_DELAY : ℚ := 6

/-- `INTENSITY_MAP.get(v, "low")` — 10/20/30 → low/medium/high, default low. -/
def INTENSITY_MAP_get (v : Nat) : String :=
  if v = 10 then "low"
  else if v = 20 then "medium"
  else if v = 30 then "high"
  else "low"

/-- `COLOR_MAP.get(v, "white")` — 0–7 → names, default white. -/
def COLOR_MAP_get (v : Nat) : String :=
  if v = 0 then "off"
  else if v = 1 then "rotating"
  else if v = 2 then "white"
  else if v = 3 then "red"
  else if v = 4 then "blue"
  else if v = 5 then "violet"
  else if v = 6 then "green"
  else if v = 7 then "orange"
  else "white"

/-- `INTENSITY_COMMANDS` dictionary lookup (`intensity in INTENSITY_COMMANDS`
and `INTENSITY_COMMANDS[intensity]`). -/
def INTENSITY_COMMANDS_find (s : String) : Option (List Nat) :=
  if s = "low" then some CMD_INTENSITY_LOW
  else if s = "medium" then some CMD_INTENSITY_MEDIUM
  else if s = "high" then some CMD_INTENSITY_HIGH
  else none

/-- `COLOR_COMMANDS` dictionary lookup. -/
def COLOR_COMMANDS_find (s : String) : Option (List Nat) :=
  if s = "off" then some CMD_COLOR_OFF
  else if s = "rotating" then some CMD_COLOR_ROTATING
  else if s = "white" then some CMD_COLOR_WHITE
  else if s = "red" then some CMD_COLOR_RED
  else if s = "blue" then some CMD_COLOR_BLUE
  else if s = "violet" then some CMD_COLOR_VIOLET
  else if s = "green" then some CMD_COLOR_GREEN
  else if s = "orange" then some CMD_COLOR_ORANGE
  else none

/-! ## Tracked device state (coordinator `__init__`, fields `_current_mode`,
`_is_on`, `_intensity`, `_color`, `_schedule_on`) -/

structure DeviceState where
  currentMode : Nat
  isOn : Bool
  intensity : String
  color : String
  scheduleOn : Bool
deriving Repr, DecidableEq

/-- Initial tracked state set in `__init__`. -/
def initialDeviceState : DeviceState :=
  { currentMode := 0, isOn := false, intensity := "low", color := "white", scheduleOn := false }

/-! ## Status decoding (`_parse_status_response`) -/

/-- The guard `data[0:2] == RESP_HEADER and data[2] == 0x40`
(signature of a status response). -/
def statusMarkerOk (data : List Nat) : Bool :=
  data.take 2 == RESP_HEADER && data.getD 2 0 == 0x40

/-- `_parse_status_response`: on a well-formed 16-byte status frame it
overwrites the tracked fields; on a short or mismarked frame it returns with
the state untouched. -/
def parseStatusResponse (s : DeviceState) (data : List Nat) : DeviceState :=
  if data.length < 16 then s
  else if ¬ statusMarkerOk data then s
  else
    { intensity := INTENSITY_MAP_get (data.getD STATUS_BYTE_INTENSITY 0)
      color := COLOR_MAP_get (data.getD STATUS_BYTE_COLOR 0)
      scheduleOn := data.getD STATUS_BYTE_SCHEDULE 0 == 1
      isOn := data.getD STATUS_BYTE_POWER 0 == 1
      currentMode := data.getD STATUS_BYTE_MODE 0 }

/-- The spec's `DecodeFailure` taxonomy for the two early-return branches of
`_parse_status_response`. -/
inductive DecodeFailure where
  | tooShort
  | unexpectedMarker
deriving Repr, DecidableEq

/-- The spec's `StatusResponse` record. -/
structure StatusFields where
  power : Bool
  intensity : String
  color : String
  scheduleEnabled : Bool
  mode : Nat
deriving Repr, DecidableEq

/-- `decode_status`: branch-labelled version of `_parse_status_response` —
same guards in the same order, producing the decoded fields instead of
mutating the coordinator. -/
def decodeStatus (data : List Nat) : Except DecodeFailure StatusFields :=
  if data.length < 16 then .error .tooShort
  else if ¬ statusMarkerOk data then .error .unexpectedMarker
  else .ok
    { intensity := INTENSITY_MAP_get (data.getD STATUS_BYTE_INTENSITY 0)
      color := COLOR_MAP_get (data.getD STATUS_BYTE_COLOR 0)
      scheduleEnabled := data.getD STATUS_BYTE_SCHEDULE 0 == 1
      power := data.getD STATUS_BYTE_POWER 0 == 1
      mode := data.getD STATUS_BYTE_MODE 0 }

/-! ## Notification filter (`_notification_handler`) -/

/-- Handler-visible state: `_last_response` and `_response_event`. -/
structure NotifState where
  lastResponse : Option (List Nat)
  eventSet : Bool
deriving Repr, DecidableEq

/-- `_notification_handler`: drop all-0xFF / all-0x00 filler frames, otherwise
store the frame and set the response event. -/
def notificationHandler (st : NotifState) (data : List Nat) : NotifState :=
  if data.all (fun b => b == 0xFF) || data.all (fun b => b == 0) then st
  else { lastResponse := some data, eventSet := true }

/-- A well-formed 16-byte status frame with chosen intensity, color, schedule,
power and mode bytes (other payload bytes zero). -/
def mkStatusFrame (ib cb sb pb mb : Nat) : List Nat :=
  [0xFF, 0xFB, 0x40, 0, 0, 0, 0, 0, ib, 0, 0, 0, cb, sb, pb, mb]

/-! ## Connect backoff (`_ensure_connected` retry loop, all attempts failing) -/

/-- Python's `min(x, y)`: `x` if `x <= y` else `y`. -/
def pymin (x y : ℚ) : ℚ :=
  if x ≤ y then x else y

/-- Delay update performed in the `except BleakError` branch of
`_ensure_connected`: `1.0` from zero, otherwise doubled and capped at
`CONNECTION_MAX_DELAY` (`min(self._connect_delay * 2, CONNECTION_MAX_DELAY)`). -/
def nextConnectDelay (d : ℚ) : ℚ :=
  if d = 0 then 1 else pymin (d * 2) CONNECTION_MAX_DELAY

/-- The retry loop of `_ensure_connected` when every attempt raises: `n`
attempts remain; each failure updates the delay and, unless it was the last
attempt (`attempt < CONNECTION_MAX_ATTEMPTS - 1` in the source), sleeps the
updated delay.  Returns the list of slept delays and the final
`_connect_delay`. -/
def failLoopAux (d : ℚ) : Nat → List ℚ × ℚ
  | 0 => ([], d)
  | n + 1 =>
    let d' := nextConnectDelay d
    let rest := failLoopAux d' n
    if n = 0 then (rest.1, rest.2) else (d' :: rest.1, rest.2)

/-- One `_ensure_connected` call in which all `CONNECTION_MAX_ATTEMPTS`
connect attempts fail, starting from delay `d`: the delays actually slept and
the final stored delay. -/
def ensureConnectedFailSleeps (d : ℚ) : List ℚ × ℚ :=
  failLoopAux d CONNECTION_MAX_ATTEMPTS

/-! ## Dispatcher and orchestrator (`_send_command`, `async_request_status`,
`async_set_*`, `_async_update_data`)

A `_send_command` call is abstracted by an oracle value: either the send
raised (`BleakError` from connect/write, or `HomeAssistantError` from the
exhausted retry loop) — carrying whether the link was left open when it
raised — or it completed the write and produced an optional response frame
(`None` on response timeout and for fire-and-forget sends). -/

inductive SendRes where
  | ok (resp : Option (List Nat))
  | err (openAfter : Bool)
deriving Repr, DecidableEq

/-- A world assigns an outcome to each successive `_send_command` call. -/
def okWorld (f : Nat → Option (List Nat)) : Nat → SendRes :=
  fun n => .ok (f n)

/-- Session state read and written by the operation runs (`_send_command`
and the orchestrator touch only the tracked device state and the link
handle; `_monitoring_enabled` is not consulted by them). -/
structure Session where
  dev : DeviceState
  linkOpen : Bool
deriving Repr, DecidableEq

/-- Running state of one orchestrator operation: the session, the index of the
next `_send_command` call, and the command frames written so far. -/
structure RunSt where
  sess : Session
  idx : Nat
  writes : List (List Nat)
deriving Repr, DecidableEq

def initRun (s : Session) : RunSt := { sess := s, idx := 0, writes := [] }

/-- One `_send_command` call: on success the link is (now) open, the command
bytes have been written and the oracle's response is returned; on a raise no
frame is recorded and the link is open or not as the oracle says. -/
def sendStep (w : Nat → SendRes) (cmd : List Nat) (st : RunSt) :
    RunSt × Except Unit (Option (List Nat)) :=
  match w st.idx with
  | .ok r =>
    ({ sess := { st.sess with linkOpen := true }, idx := st.idx + 1,
       writes := st.writes ++ [cmd] }, .ok r)
  | .err openAfter =>
    ({ sess := { st.sess with linkOpen := openAfter }, idx := st.idx + 1,
       writes := st.writes }, .error ())

/-- `_disconnect`: always clears the handle, even on transport errors. -/
def disconnectStep (st : RunSt) : RunSt :=
  { st with sess := { st.sess with linkOpen := false } }

/-- `async_request_status`: query with the status command of the tracked mode;
a truthy response is parsed and yields `True`, a falsy one (`None` or empty)
yields `False` without parsing. -/
def requestStatusStep (w : Nat → SendRes) (st : RunSt) :
    RunSt × Except Unit Bool :=
  let cmd := if st.sess.dev.currentMode = 1 then CMD_STATUS_SCHEDULE else CMD_STATUS_HOME
  match sendStep w cmd st with
  | (st', .error _) => (st', .error ())
  | (st', .ok none) => (st', .ok false)
  | (st', .ok (some [])) => (st', .ok false)
  | (st', .ok (some (b :: bs))) =>
    ({ st' with sess := { st'.sess with
        dev := parseStatusResponse st'.sess.dev (b :: bs) } }, .ok true)

/-- Failure taxonomy surfaced by an orchestrator operation. -/
inductive OpError where
  | noResponse
  | commandRejected
  | transport
deriving Repr, DecidableEq

/-- Common template of `async_set_power` / `async_set_intensity` /
`async_set_color` after their guards: force HOME mode if needed, send the
operation command, confirm via a status query, disconnect, then check that a
response arrived and that the checked field changed; any raised error
triggers the `except` handler, which disconnects again before re-raising. -/
def homeOpRun (w : Nat → SendRes) (cmd : List Nat) (check : DeviceState → Bool)
    (s : Session) : RunSt × Except OpError Unit :=
  let st0 := initRun s
  let mode : RunSt × Except Unit Unit :=
    if st0.sess.dev.currentMode ≠ 0 then
      match sendStep w CMD_MODE_HOME st0 with
      | (st, .ok _) =>
        ({ st with sess := { st.sess with
            dev := { st.sess.dev with currentMode := 0 } } }, .ok ())
      | (st, .error _) => (st, .error ())
    else (st0, .ok ())
  match mode with
  | (st, .error _) => (disconnectStep st, .error .transport)
  | (st1, .ok _) =>
    match sendStep w cmd st1 with
    | (st, .error _) => (disconnectStep st, .error .transport)
    | (st2, .ok _) =>
      match requestStatusStep w st2 with
      | (st, .error _) => (disconnectStep st, .error .transport)
      | (st3, .ok statusOk) =>
        let st4 := disconnectStep st3
        if ¬ statusOk then (disconnectStep st4, .error .noResponse)
        else if ¬ check st4.sess.dev then (disconnectStep st4, .error .commandRejected)
        else (st4, .ok ())

/-- `async_set_power`. -/
def setPowerRun (w : Nat → SendRes) (turnOn : Bool) (s : Session) :
    RunSt × Except OpError Unit :=
  homeOpRun w (if turnOn then CMD_POWER_ON else CMD_POWER_OFF)
    (fun d => d.isOn == turnOn) s

/-- `async_set_intensity`: an intensity outside `INTENSITY_COMMANDS` is logged
and the call returns normally without touching the device. -/
def setIntensityRun (w : Nat → SendRes) (intensity : String) (s : Session) :
    RunSt × Except OpError Unit :=
  match INTENSITY_COMMANDS_find intensity with
  | none => (initRun s, .ok ())
  | some cmd => homeOpRun w cmd (fun d => d.intensity == intensity) s

/-- `async_set_color`: a color outside `COLOR_COMMANDS` is logged and the call
returns normally without touching the device. -/
def setColorRun (w : Nat → SendRes) (color : String) (s : Session) :
    RunSt × Except OpError Unit :=
  match COLOR_COMMANDS_find color with
  | none => (initRun s, .ok ())
  | some cmd => homeOpRun w cmd (fun d => d.color == color) s

/-- `async_set_schedule`: force SCHEDULE mode (mode switch plus schedule-sync)
if needed, then the 4-command enable sequence or the single disable command,
then the status confirmation, disconnect and checks. -/
def setScheduleRun (w : Nat → SendRes) (turnOn : Bool) (s : Session) :
    RunSt × Except OpError Unit :=
  let st0 := initRun s
  let mode : RunSt × Except Unit Unit :=
    if st0.sess.dev.currentMode ≠ 1 then
      match sendStep w CMD_MODE_SCHEDULE st0 with
      | (st, .error _) => (st, .error ())
      | (stA, .ok _) =>
        match sendStep w CMD_SCHEDULE_SYNC stA with
        | (st, .error _) => (st, .error ())
        | (stB, .ok _) =>
          ({ stB with sess := { stB.sess with
              dev := { stB.sess.dev with currentMode := 1 } } }, .ok ())
    else (st0, .ok ())
  match mode with
  | (st, .error _) => (disconnectStep st, .error .transport)
  | (st1, .ok _) =>
    let body : RunSt × Except Unit Unit :=
      if turnOn then
        match sendStep w CMD_SCHEDULE_ON st1 with
        | (st, .error _) => (st, .error ())
        | (stA, .ok _) =>
          match sendStep w CMD_SETTINGS_SYNC stA with
          | (st, .error _) => (st, .error ())
          | (stB, .ok _) =>
            match sendStep w CMD_SCHEDULE_UNKNOWN1 stB with
            | (st, .error _) => (st, .error ())
            | (stC, .ok _) =>
              match sendStep w CMD_SCHEDULE_UNKNOWN2 stC with
              | (st, .error _) => (st, .error ())
              | (stD, .ok _) => (stD, .ok ())
      else
        match sendStep w CMD_SCHEDULE_OFF st1 with
        | (st, .error _) => (st, .error ())
        | (stA, .ok _) => (stA, .ok ())
    match body with
    | (st, .error _) => (disconnectStep st, .error .transport)
    | (st2, .ok _) =>
      match requestStatusStep w st2 with
      | (st, .error _) => (disconnectStep st, .error .transport)
      | (st3, .ok statusOk) =>
        let st4 := disconnectStep st3
        if ¬ statusOk then (disconnectStep st4, .error .noResponse)
        else if ¬ (st4.sess.dev.scheduleOn == turnOn) then
          (disconnectStep st4, .error .commandRejected)
        else (st4, .ok ())

/-- `_async_update_data` (the periodic refresh): status query, disconnect,
return the data dictionary; every `except` arm also disconnects before
re-raising as `UpdateFailed`. -/
def asyncUpdateDataRun (w : Nat → SendRes) (s : Session) :
    RunSt × Except OpError Unit :=
  match requestStatusStep w (initRun s) with
  | (st, .error _) => (disconnectStep st, .error .transport)
  | (st, .ok _) => (disconnectStep st, .ok ())

/-! ## Concurrent `_send_command` callers

`_send_command` holds no lock of its own: `_connection_lock` is acquired and
released inside `_ensure_connected`, and the write plus the 2-second response
wait happen outside it.  Each caller therefore passes these suspension
points: awaiting `_ensure_connected`, awaiting `write_gatt_char` (the write is
issued), awaiting the response event.  Two concurrent callers A and B are
modelled as an interleaving of these atomic steps. -/

inductive TaskPC where
  | notStarted
  | ready
  | awaitingResponse
  | finished
deriving Repr, DecidableEq

structure ConcState where
  pcA : TaskPC
  pcB : TaskPC
  /-- Issue order of writes to the command endpoint; `true` = task A. -/
  writeLog : List Bool
deriving Repr, DecidableEq

def initConc : ConcState := { pcA := .notStarted, pcB := .notStarted, writeLog := [] }

/-- Interleaving semantics of two `_send_command` calls.  A task moves from
`notStarted` to `ready` by completing `_ensure_connected` (the lock is free:
no other task holds it across an await outside that call), from `ready` to
`awaitingResponse` by issuing its write, and from `awaitingResponse` to
`finished` when its wait completes.  Nothing in the code makes one task's
progress wait on the other outside `_ensure_connected`. -/
inductive SendInterleave : ConcState → ConcState → Prop where
  | connectA (s : ConcState) : s.pcA = .notStarted →
      SendInterleave s { s with pcA := .ready }
  | connectB (s : ConcState) : s.pcB = .notStarted →
      SendInterleave s { s with pcB := .ready }
  | writeA (s : ConcState) : s.pcA = .ready →
      SendInterleave s { s with pcA := .awaitingResponse, writeLog := s.writeLog ++ [true] }
  | writeB (s : ConcState) : s.pcB = .ready →
      SendInterleave s { s with pcB := .awaitingResponse, writeLog := s.writeLog ++ [false] }
  | respondA (s : ConcState) : s.pcA = .awaitingResponse →
      SendInterleave s { s with pcA := .finished }
  | respondB (s : ConcState) : s.pcB = .awaitingResponse →
      SendInterleave s { s with pcB := .finished }

/-! ## `start_monitoring` and full coordinator state -/

/-- The coordinator fields relevant to `start_monitoring`. -/
structure CoordState where
  dev : DeviceState
  linkOpen : Bool
  lastActivityTime : ℚ
  connectDelay : ℚ
  monitoringEnabled : Bool
deriving Repr, DecidableEq

/-- `start_monitoring`: the body is the single assignment
`self._monitoring_enabled = True`. -/
def start_monitoring (s : CoordState) : CoordState :=
  { s with monitoringEnabled := true }

/-- The part of the coordinator state that command sending and status polling
actually read: the `_monitoring_enabled` flag is projected away. -/
def coordSession (c : CoordState) : Session :=
  { dev := c.dev, linkOpen := c.linkOpen }

/-! ## Derived observations used by the theorems -/

/-- Python truthiness of the stored response in `async_request_status`
(`if response:` fails for `None` and for empty bytes). -/
def falsyResp : Option (List Nat) → Bool
  | none => true
  | some [] => true
  | some (_ :: _) => false

/-- Index (among the operation's successive `_send_command` calls) of the
confirming status query in the power/intensity/color template. -/
def homeStatusIdx (s : Session) : Nat :=
  if s.dev.currentMode ≠ 0 then 2 else 1

/-- Index of the confirming status query among `async_set_schedule`'s
`_send_command` calls. -/
def scheduleStatusIdx (s : Session) (turnOn : Bool) : Nat :=
  (if s.dev.currentMode ≠ 1 then 2 else 0) + (if turnOn then 4 else 1)

/-- A baseline session: fresh coordinator tracked state, link closed. -/
def baseSession : Session :=
  { dev := initialDeviceState, linkOpen := false }

/-- A session whose tracked state already says the device is on. -/
def sessionAlreadyOn : Session :=
  { dev := { initialDeviceState with isOn := true }, linkOpen := false }

/-- A world in which the confirming status query (the second send of a
power operation in HOME mode) is answered by the 1-byte garbage frame
`[0xAA]` — non-filler, so it satisfies the response wait, but not decodable. -/
def garbageStatusWorld : Nat → SendRes :=
  okWorld fun n => if n = 1 then some [0xAA] else none

/-! ## Theorems -/

lemma homeOpRun_linkClosed (w : Nat → SendRes) (cmd : List Nat)
    (check : DeviceState → Bool) (s : Session) :
    (homeOpRun w cmd check s).1.sess.linkOpen = false := by
  simp only [homeOpRun]
  repeat' split
  all_goals rfl

lemma setScheduleRun_linkClosed (w : Nat → SendRes) (turnOn : Bool) (s : Session) :
    (setScheduleRun w turnOn s).1.sess.linkOpen = false := by
  simp only [setScheduleRun]
  repeat' split
  all_goals rfl

lemma asyncUpdateDataRun_linkClosed (w : Nat → SendRes) (s : Session) :
    (asyncUpdateDataRun w s).1.sess.linkOpen = false := by
  simp only [asyncUpdateDataRun]
  repeat' split
  all_goals rfl

lemma requestStatus_result (f : Nat → Option (List Nat)) (st : RunSt) :
    (requestStatusStep (okWorld f) st).2 = .ok (!falsyResp (f st.idx)) := by
  simp only [requestStatusStep, sendStep, okWorld]
  rcases f st.idx with _ | l
  · rfl
  · rcases l with _ | ⟨b, bs⟩ <;> rfl

lemma homeOpRun_noResponse_iff (f : Nat → Option (List Nat)) (cmd : List Nat)
    (check : DeviceState → Bool) (s : Session) :
    ((homeOpRun (okWorld f) cmd check s).2 = .error .noResponse) ↔
      falsyResp (f (homeStatusIdx s)) = true := by
  by_cases hm : s.dev.currentMode = 0
  · simp only [homeOpRun, initRun, sendStep, okWorld, requestStatusStep,
      disconnectStep, homeStatusIdx, hm]
    norm_num
    rcases f 1 with _ | l
    · simp [falsyResp]
    · rcases l with _ | ⟨b, bs⟩
      · simp [falsyResp]
      · dsimp only
        simp only [falsyResp]
        simp
        split <;> simp
  · simp only [homeOpRun, initRun, sendStep, okWorld, requestStatusStep,
      disconnectStep, homeStatusIdx, hm]
    norm_num [hm]
    rcases f 2 with _ | l
    · simp [falsyResp]
    · rcases l with _ | ⟨b, bs⟩
      · simp [falsyResp]
      · dsimp only
        simp only [falsyResp]
        simp
        split <;> simp

lemma setScheduleRun_noResponse_iff (f : Nat → Option (List Nat)) (turnOn : Bool)
    (s : Session) :
    ((setScheduleRun (okWorld f) turnOn s).2 = .error .noResponse) ↔
      falsyResp (f (scheduleStatusIdx s turnOn)) = true := by
  by_cases hm : s.dev.currentMode = 1 <;> cases turnOn <;>
    simp only [setScheduleRun, initRun, sendStep, okWorld, requestStatusStep,
      disconnectStep, scheduleStatusIdx, hm] <;> norm_num [hm]
  · rcases f 1 with _ | l
    · simp [falsyResp]
    · rcases l with _ | ⟨b, bs⟩
      · simp [falsyResp]
      · dsimp only
        simp only [falsyResp]
        simp
        split <;> simp
  · rcases f 4 with _ | l
    · simp [falsyResp]
    · rcases l with _ | ⟨b, bs⟩
      · simp [falsyResp]
      · dsimp only
        simp only [falsyResp]
        simp
        split <;> simp
  · rcases f 3 with _ | l
    · simp [falsyResp]
    · rcases l with _ | ⟨b, bs⟩
      · simp [falsyResp]
      · dsimp only
        simp only [falsyResp]
        simp
        split <;> simp
  · rcases f 6 with _ | l
    · simp [falsyResp]
    · rcases l with _ | ⟨b, bs⟩
      · simp [falsyResp]
      · dsimp only
        simp only [falsyResp]
        simp
        split <;> simp

/-- Claim C3 counterexample: with `reconnect_delay` starting at 0 and all
three connect attempts failing, the delays actually slept are `[1, 2]`, not
`[1, 2, 4]` as claimed — the third computed delay `4` is stored but never
slept, because `_ensure_connected` sleeps only when `attempt <
CONNECTION_MAX_ATTEMPTS - 1` and raises after the last attempt. -/
theorem c3_counterexample :
    ensureConnectedFailSleeps 0 = ([1, 2], 4) ∧
    (ensureConnectedFailSleeps 0).1 ≠ [(1 : ℚ), 2, 4] := by
  constructor
  · norm_num [ensureConnectedFailSleeps, CONNECTION_MAX_ATTEMPTS, failLoopAux,
      nextConnectDelay, pymin, CONNECTION_MAX_DELAY]
  · norm_num [ensureConnectedFailSleeps, CONNECTION_MAX_ATTEMPTS, failLoopAux,
      nextConnectDelay, pymin, CONNECTION_MAX_DELAY]

/-- Claim C3, amended: starting from delay 0, three consecutive failed
attempts inside one `_ensure_connected` call sleep exactly `1.0` then `2.0`;
the delay computed on the third failure is `4.0` but is not slept (the call
raises instead).  Every computed delay is capped at `CONNECTION_MAX_DELAY =
6.0`: a nonzero delay becomes `min(2d, 6)`, so it doubles until the cap and
never exceeds `6.0`. -/
theorem c3_backoff_sleeps :
    ensureConnectedFailSleeps 0 = ([1, 2], 4) ∧
    (∀ d : ℚ, 0 ≤ d → nextConnectDelay d ≤ CONNECTION_MAX_DELAY) ∧
    (∀ d : ℚ, d ≠ 0 → d * 2 ≤ CONNECTION_MAX_DELAY → nextConnectDelay d = d * 2) ∧
    (∀ d : ℚ, d ≠ 0 → CONNECTION_MAX_DELAY ≤ d * 2 →
      nextConnectDelay d = CONNECTION_MAX_DELAY) := by
  refine ⟨?_, ?_, ?_, ?_⟩
  · norm_num [ensureConnectedFailSleeps, CONNECTION_MAX_ATTEMPTS, failLoopAux,
      nextConnectDelay, pymin, CONNECTION_MAX_DELAY]
  · intro d hd
    unfold nextConnectDelay pymin CONNECTION_MAX_DELAY
    split
    · norm_num
    · split <;> linarith
  · intro d hd hle
    unfold nextConnectDelay pymin
    rw [if_neg hd, if_pos hle]
  · intro d hd hge
    unfold nextConnectDelay pymin
    rw [if_neg hd]
    split
    · linarith
    · rfl

/-- Claim C3 witness: concrete instantiation of the amended backoff facts. -/
theorem c3_backoff_sleeps_witness :
    nextConnectDelay 2 ≤ CONNECTION_MAX_DELAY ∧
    nextConnectDelay 2 = 2 * 2 ∧
    nextConnectDelay 4 = CONNECTION_MAX_DELAY := by
  refine ⟨c3_backoff_sleeps.2.1 2 (by norm_num),
    (c3_backoff_sleeps.2.2.1 2 (by norm_num)
      (by norm_num [CONNECTION_MAX_DELAY])).trans (by norm_num),
    c3_backoff_sleeps.2.2.2 4 (by norm_num) (by norm_num [CONNECTION_MAX_DELAY])⟩

/-- Claim C6: a status payload shorter than 16 bytes always fails to decode
as `TooShort`, and a payload of at least 16 bytes whose first two bytes or
third (opcode) byte mismatch the status-response signature always fails as
`UnexpectedMarker`; in both cases `_parse_status_response` returns leaving
every tracked field unchanged (decoding is a total function — no partial
update, no exception). -/
theorem c6_decode_failures :
    ∀ (s : DeviceState) (data : List Nat),
      (data.length < 16 →
        decodeStatus data = .error .tooShort ∧ parseStatusResponse s data = s) ∧
      (16 ≤ data.length → statusMarkerOk data = false →
        decodeStatus data = .error .unexpectedMarker ∧ parseStatusResponse s data = s) := by
  intro s data
  constructor
  · intro hshort
    constructor
    · unfold decodeStatus
      rw [if_pos hshort]
    · unfold parseStatusResponse
      rw [if_pos hshort]
  · intro hlong hmark
    have hnot : ¬ data.length < 16 := by omega
    constructor
    · unfold decodeStatus
      rw [if_neg hnot, if_pos (by simp [hmark])]
    · unfold parseStatusResponse
      rw [if_neg hnot, if_pos (by simp [hmark])]

/-- Claim C6 witness: a 3-byte frame decodes as `TooShort`; a 16-byte frame
with a wrong marker decodes as `UnexpectedMarker`; both leave the tracked
state untouched. -/
theorem c6_decode_failures_witness :
    decodeStatus [1, 2, 3] = .error .tooShort ∧
    parseStatusResponse initialDeviceState [1, 2, 3] = initialDeviceState ∧
    decodeStatus [0, 0, 0, 0, 0, 0, 0, 0, 0, 0, 0, 0, 0, 0, 0, 1] =
      .error .unexpectedMarker ∧
    parseStatusResponse initialDeviceState
      [0, 0, 0, 0, 0, 0, 0, 0, 0, 0, 0, 0, 0, 0, 0, 1] = initialDeviceState := by
  refine ⟨(c6_decode_failures initialDeviceState [1, 2, 3]).1 (by decide) |>.1,
    (c6_decode_failures initialDeviceState [1, 2, 3]).1 (by decide) |>.2,
    (c6_decode_failures initialDeviceState _).2 (by decide) (by decide) |>.1,
    (c6_decode_failures initialDeviceState _).2 (by decide) (by decide) |>.2⟩

/-- Claim C7: an inbound frame that is entirely `0xFF` or entirely `0x00` —
of any length, the empty frame included — is discarded by
`_notification_handler`: the stored pending response and the response event
are left exactly as they were, so such a frame can never satisfy a response
wait nor reach the decoder. -/
theorem c7_filler_discarded :
    ∀ (st : NotifState) (data : List Nat),
      ((∀ b ∈ data, b = 0xFF) ∨ (∀ b ∈ data, b = 0) →
        notificationHandler st data = st) ∧
      notificationHandler st [] = st := by
  intro st data
  constructor
  · intro h
    unfold notificationHandler
    rcases h with h | h
    · rw [if_pos]
      simp only [Bool.or_eq_true, List.all_eq_true]
      exact Or.inl fun b hb => by simp [h b hb]
    · rw [if_pos]
      simp only [Bool.or_eq_true, List.all_eq_true]
      exact Or.inr fun b hb => by simp [h b hb]
  · rfl

/-- Claim C7 witness: a concrete all-zero frame and a concrete all-`0xFF`
frame are both dropped with the handler state unchanged. -/
theorem c7_filler_discarded_witness :
    notificationHandler { lastResponse := none, eventSet := false } [0, 0, 0] =
      { lastResponse := none, eventSet := false } ∧
    notificationHandler { lastResponse := some [1], eventSet := true }
      [0xFF, 0xFF] = { lastResponse := some [1], eventSet := true } := by
  exact ⟨(c7_filler_discarded _ [0, 0, 0]).1 (Or.inr (by decide)),
    (c7_filler_discarded _ [0xFF, 0xFF]).1 (Or.inl (by decide))⟩

/-- Claim C8 counterexample: for the unknown intensity `"ultra"` (and the
unknown color `"magenta"`) the operation does not fail at all — it returns
normally having sent nothing, i.e. it proceeds exactly as the runtime no-op
the claim rules out. -/
theorem c8_counterexample :
    INTENSITY_COMMANDS_find "ultra" = none ∧
    setIntensityRun (okWorld fun _ => none) "ultra" baseSession =
      (initRun baseSession, .ok ()) ∧
    COLOR_COMMANDS_find "magenta" = none ∧
    setColorRun (okWorld fun _ => none) "magenta" baseSession =
      (initRun baseSession, .ok ()) := by
  exact ⟨rfl, rfl, rfl, rfl⟩

/-- Claim C8, amended: an intent outside the known command tables is rejected
before any device interaction — no command bytes are written and the session
is untouched — but the call completes normally (logging a warning) instead of
raising: a runtime no-op, not a fail-fast programmer error. -/
theorem c8_unknown_intent_noop :
    ∀ (w : Nat → SendRes) (s : Session) (i c : String),
      (INTENSITY_COMMANDS_find i = none →
        setIntensityRun w i s = (initRun s, .ok ())) ∧
      (COLOR_COMMANDS_find c = none →
        setColorRun w c s = (initRun s, .ok ())) := by
  intro w s i c
  constructor
  · intro h
    unfold setIntensityRun
    rw [h]
  · intro h
    unfold setColorRun
    rw [h]

/-- Claim C8 witness: the amended fact at the unknown intents `"ultra"` and
`"magenta"`. -/
theorem c8_unknown_intent_noop_witness :
    setIntensityRun (okWorld fun _ => none) "ultra" baseSession =
      (initRun baseSession, .ok ()) ∧
    setColorRun (okWorld fun _ => none) "magenta" baseSession =
      (initRun baseSession, .ok ()) := by
  exact ⟨(c8_unknown_intent_noop _ baseSession "ultra" "magenta").1 rfl,
    (c8_unknown_intent_noop _ baseSession "ultra" "magenta").2 rfl⟩

/-- Claim C9: decoding a well-formed 16-byte status frame is total in the
enum bytes — for every intensity byte the frame decodes, with the intensity
read through `INTENSITY_MAP` defaulting to `"low"`; in particular byte `0x0A`
decodes to low, byte `0x1E` (30) to high, and the unrecognized byte `0x99`
falls back to low rather than failing. -/
theorem c9_intensity_fallback :
    (∀ ib cb sb pb mb : Nat,
      decodeStatus (mkStatusFrame ib cb sb pb mb) =
        .ok { power := pb == 1, intensity := INTENSITY_MAP_get ib,
              color := COLOR_MAP_get cb, scheduleEnabled := sb == 1, mode := mb }) ∧
    decodeStatus (mkStatusFrame 0x0A 2 0 1 0) =
      .ok { power := true, intensity := "low", color := "white",
            scheduleEnabled := false, mode := 0 } ∧
    decodeStatus (mkStatusFrame 0x1E 2 0 1 0) =
      .ok { power := true, intensity := "high", color := "white",
            scheduleEnabled := false, mode := 0 } ∧
    decodeStatus (mkStatusFrame 0x99 2 0 1 0) =
      .ok { power := true, intensity := "low", color := "white",
            scheduleEnabled := false, mode := 0 } := by
  refine ⟨fun ib cb sb pb mb => rfl, rfl, rfl, rfl⟩

/-- Claim C1 (code bug): `_send_command` serializes nothing — the
`_connection_lock` is held only inside `_ensure_connected`, so from the state
where both tasks start, the interleaving "A connects, A writes, B connects,
B writes" is reachable: B's write to the command endpoint is issued
(`writeLog = [true, false]`) while A is still awaiting its response, which the
class docstring ("Uses a command queue to serialize device communication")
and the claim both forbid. -/
theorem c1_second_write_while_first_awaits :
    Relation.ReflTransGen SendInterleave initConc
      { pcA := .awaitingResponse, pcB := .awaitingResponse,
        writeLog := [true, false] } := by
  have h1 : SendInterleave initConc
      ⟨.ready, .notStarted, []⟩ := .connectA _ rfl
  have h2 : SendInterleave ⟨.ready, .notStarted, []⟩
      ⟨.awaitingResponse, .notStarted, [true]⟩ := .writeA _ rfl
  have h3 : SendInterleave ⟨.awaitingResponse, .notStarted, [true]⟩
      ⟨.awaitingResponse, .ready, [true]⟩ := .connectB _ rfl
  have h4 : SendInterleave ⟨.awaitingResponse, .ready, [true]⟩
      ⟨.awaitingResponse, .awaitingResponse, [true, false]⟩ := .writeB _ rfl
  exact ((((Relation.ReflTransGen.refl).tail h1).tail h2).tail h3).tail h4

/-- Claim C2 counterexample: the status query is answered by the garbage
frame `[0xAA]`, which decodes to nothing (`TooShort`) — step 3 produced no
decodable status — yet `async_set_power` does not fail with `NoResponse`: the
truthy-but-undecodable reply makes `async_request_status` return `True`, the
stale tracked state already matches, and the operation succeeds. -/
theorem c2_counterexample :
    decodeStatus [0xAA] = .error .tooShort ∧
    (setPowerRun garbageStatusWorld true sessionAlreadyOn).2 = .ok () ∧
    (setPowerRun garbageStatusWorld true sessionAlreadyOn).2 ≠
      .error .noResponse := by
  refine ⟨rfl, rfl, fun h => ?_⟩
  rw [show (setPowerRun garbageStatusWorld true sessionAlreadyOn).2 = .ok () from rfl] at h
  exact Except.noConfusion h

/-- Claim C2, amended: a settable operation fails with `NoResponse` exactly
when the confirming status query produced no reply at all (`None` after the
timeout, or empty bytes) — not when the reply is undecodable: any non-empty
reply, decodable or not, makes the operation proceed to succeed or fail with
`CommandRejected`. -/
theorem c2_noresponse_iff_no_reply :
    ∀ (f : Nat → Option (List Nat)) (s : Session) (b : Bool) (cmd : List Nat)
      (check : DeviceState → Bool),
      (((homeOpRun (okWorld f) cmd check s).2 = .error .noResponse) ↔
        falsyResp (f (homeStatusIdx s)) = true) ∧
      (((setPowerRun (okWorld f) b s).2 = .error .noResponse) ↔
        falsyResp (f (homeStatusIdx s)) = true) ∧
      (((setScheduleRun (okWorld f) b s).2 = .error .noResponse) ↔
        falsyResp (f (scheduleStatusIdx s b)) = true) := by
  intro f s b cmd check
  exact ⟨homeOpRun_noResponse_iff f cmd check s,
    homeOpRun_noResponse_iff f _ _ s,
    setScheduleRun_noResponse_iff f b s⟩

/-- Claim C2 witness: with no reply at all to the status query,
`async_set_power` fails with `NoResponse`. -/
theorem c2_noresponse_iff_no_reply_witness :
    (setPowerRun (okWorld fun _ => none) true baseSession).2 =
      .error .noResponse :=
  ((c2_noresponse_iff_no_reply (fun _ => none) baseSession true []
    (fun _ => true)).2.1).mpr rfl

/-- Claim C4: enabling the schedule while the tracked mode is HOME writes
exactly mode-switch-to-SCHEDULE, schedule-sync, schedule-on, settings-sync,
then the two trailing unknown synchronization commands — in that order,
nothing reordered, omitted or inserted — followed only by the confirming
status query, whatever the device replies. -/
theorem c4_schedule_enable_sequence :
    ∀ (f : Nat → Option (List Nat)) (s : Session), s.dev.currentMode = 0 →
      (setScheduleRun (okWorld f) true s).1.writes =
        [CMD_MODE_SCHEDULE, CMD_SCHEDULE_SYNC, CMD_SCHEDULE_ON, CMD_SETTINGS_SYNC,
         CMD_SCHEDULE_UNKNOWN1, CMD_SCHEDULE_UNKNOWN2, CMD_STATUS_SCHEDULE] := by
  intro f s hm
  simp only [setScheduleRun, initRun, sendStep, okWorld, requestStatusStep,
    disconnectStep, hm]
  norm_num
  rcases f 6 with _ | l
  · rfl
  · rcases l with _ | ⟨b, bs⟩
    · rfl
    · dsimp only
      repeat' split
      all_goals rfl

/-- Claim C4 witness: the write sequence at the fresh session. -/
theorem c4_schedule_enable_sequence_witness :
    (setScheduleRun (okWorld fun _ => none) true baseSession).1.writes =
      [CMD_MODE_SCHEDULE, CMD_SCHEDULE_SYNC, CMD_SCHEDULE_ON, CMD_SETTINGS_SYNC,
       CMD_SCHEDULE_UNKNOWN1, CMD_SCHEDULE_UNKNOWN2, CMD_STATUS_SCHEDULE] :=
  c4_schedule_enable_sequence (fun _ => none) baseSession rfl

/-- Claim C5: every orchestrator operation — set power / schedule, the
periodic refresh, and set intensity / color for any intent in their command
tables — leaves the link closed when it returns, on every success and failure
path, for every behavior of the transport. -/
theorem c5_link_released :
    ∀ (w : Nat → SendRes) (s : Session) (b : Bool) (i c : String),
      (setPowerRun w b s).1.sess.linkOpen = false ∧
      (setScheduleRun w b s).1.sess.linkOpen = false ∧
      (asyncUpdateDataRun w s).1.sess.linkOpen = false ∧
      (INTENSITY_COMMANDS_find i ≠ none →
        (setIntensityRun w i s).1.sess.linkOpen = false) ∧
      (COLOR_COMMANDS_find c ≠ none →
        (setColorRun w c s).1.sess.linkOpen = false) := by
  intro w s b i c
  refine ⟨homeOpRun_linkClosed w _ _ s, setScheduleRun_linkClosed w b s,
    asyncUpdateDataRun_linkClosed w s, ?_, ?_⟩
  · intro h
    unfold setIntensityRun
    rcases hf : INTENSITY_COMMANDS_find i with _ | cmd
    · exact absurd hf h
    · exact homeOpRun_linkClosed w cmd _ s
  · intro h
    unfold setColorRun
    rcases hf : COLOR_COMMANDS_find c with _ | cmd
    · exact absurd hf h
    · exact homeOpRun_linkClosed w cmd _ s

/-- Claim C5 witness: concrete runs (device never replying) end with the link
closed. -/
theorem c5_link_released_witness :
    (setPowerRun (okWorld fun _ => none) true baseSession).1.sess.linkOpen = false ∧
    (setIntensityRun (okWorld fun _ => none) "high" baseSession).1.sess.linkOpen = false ∧
    (setColorRun (okWorld fun _ => none) "red" baseSession).1.sess.linkOpen = false :=
  ⟨(c5_link_released (okWorld fun _ => none) baseSession true "high" "red").1,
   (c5_link_released (okWorld fun _ => none) baseSession true "high" "red").2.2.2.1
     (by decide),
   (c5_link_released (okWorld fun _ => none) baseSession true "high" "red").2.2.2.2
     (by decide)⟩

/-- Claim C10: `start_monitoring` sets the monitoring-enabled flag to true
and leaves the tracked device state, the link handle, the last-activity time
and the reconnect delay untouched (it is a pure field update: no I/O, no
connection, no task, no exception); and the flag gates nothing in command
sending or status polling — the operation runs read the session only through
`coordSession`, which discards the flag, so flipping it changes no run. -/
theorem c10_start_monitoring_flag_only :
    ∀ (c : CoordState) (w : Nat → SendRes) (b m : Bool),
      (start_monitoring c).monitoringEnabled = true ∧
      (start_monitoring c).dev = c.dev ∧
      (start_monitoring c).linkOpen = c.linkOpen ∧
      (start_monitoring c).lastActivityTime = c.lastActivityTime ∧
      (start_monitoring c).connectDelay = c.connectDelay ∧
      setPowerRun w b (coordSession { c with monitoringEnabled := m }) =
        setPowerRun w b (coordSession c) ∧
      asyncUpdateDataRun w (coordSession { c with monitoringEnabled := m }) =
        asyncUpdateDataRun w (coordSession c) := by
  intro c w b m
  exact ⟨rfl, rfl, rfl, rfl, rfl, rfl, rfl⟩

end SereneScent
